import Mathlib

/-!
# GovVerifyAgent — shallow embedding of the tool-orchestration core

This file embeds the core of the GovVerifyAgent repository in Lean 4 and proves
properties of the embedded code.  The embedded parts are:

* the daily-statistics aggregator (`updateDailyStatisticsForVerification`,
  `updateDailyStatisticsForThreat` in `src/tools/verification.ts`),
* the verification / data-gap / escalation tool handlers
  (`verifyInformationHandler`, `reportCyberThreatHandler`,
  `escalateInformationRequestHandler` in `src/tools/verification.ts`),
* the conversation session store and the bounded tool-calling loop
  (`getOrCreateConversation`, `cleanupInactiveConversations`, `processMessage`,
  `executeFunction` in `server/src/gov-verifyAgent.ts`).

Modelling conventions: the Prisma tables become lists of rows inside a `Store`
record, threaded through the handlers in program order; `findFirst` becomes
`List.find?` and an `update` keyed by the primary key of a `findFirst` result
becomes `updateFirst` (replace the first matching row — primary keys are
unique); JavaScript `Date` values become explicit numeric parameters; the
language model and the retrieval service are external collaborators, modelled
as oracle inputs; machine floats (retrieval match scores) are omitted because
no embedded control flow depends on them.  Falsy checks (`if (x)`) on
optional numbers, booleans and strings are translated explicitly
(`none`, `some 0`, `some false`, `some ""` are falsy).
-/

namespace GovVerify

/-- JavaScript `Math.round (p / q)` for natural `p` and positive natural `q`:
rounds half away from zero, i.e. `⌊p / q + 1 / 2⌋ = (2 * p + q) / (2 * q)`. -/
def jsRoundDiv (p q : Nat) : Nat := (2 * p + q) / (2 * q)

theorem jsRoundDiv_one (t : Nat) : jsRoundDiv t 1 = t := by
  unfold jsRoundDiv
  omega

/-- One row of the `DailyStatistics` table (the columns the verification tools
touch).  `avgResponseTimeMs` is a nullable column.  The zeroed default values
are exactly the ones used by the get-or-create path of the aggregator. -/
structure DailyStatistics where
  totalVerifications : Nat := 0
  verifiedTrue : Nat := 0
  verifiedFalse : Nat := 0
  verifiedPartial : Nat := 0
  unverified : Nat := 0
  totalThreats : Nat := 0
  urgentThreats : Nat := 0
  totalAmountLostDaily : Nat := 0
  activeUsers : Nat := 0
  newUsers : Nat := 0
  avgResponseTimeMs : Option Nat := none
  deriving Repr, DecidableEq

/-- `updateDailyStatisticsForVerification` (`src/tools/verification.ts`).
`row` is today's `DailyStatistics` row, `none` when the table has no row for
today yet (the get-or-create path then starts from the zeroed row).  The
status sub-counter matching the `else if` chain is incremented, and, when a
truthy `responseTimeMs` is supplied, the running average is recomputed from
the pre-increment `totalVerifications` counter read from `stats`. -/
def updateDailyStatisticsForVerification (row : Option DailyStatistics)
    (status : String) (responseTimeMs : Option Nat) : DailyStatistics :=
  let stats := row.getD {}
  let base : DailyStatistics :=
    { stats with
      totalVerifications := stats.totalVerifications + 1
      verifiedTrue := stats.verifiedTrue + (if status = "VERIFIED" then 1 else 0)
      verifiedFalse := stats.verifiedFalse + (if status = "FALSE" then 1 else 0)
      verifiedPartial := stats.verifiedPartial + (if status = "PARTIALLY_TRUE" then 1 else 0)
      unverified := stats.unverified + (if status = "UNVERIFIED" then 1 else 0) }
  match responseTimeMs with
  | some t =>
      if t ≠ 0 then
        let currentAvg := stats.avgResponseTimeMs.getD 0
        let currentCount := stats.totalVerifications
        let newAvg :=
          if currentCount > 0 then jsRoundDiv (currentAvg * currentCount + t) (currentCount + 1)
          else t
        { base with avgResponseTimeMs := some newAvg }
      else base
  | none => base

/-- `updateDailyStatisticsForThreat` (`src/tools/verification.ts`).  `isUrgent`
arrives untyped from the tool arguments, so the truthy test is `some true`;
`amountLost` is added only when present and positive (`amountLost &&
amountLost > 0`). -/
def updateDailyStatisticsForThreat (row : Option DailyStatistics)
    (isUrgent : Option Bool) (amountLost : Option Nat) : DailyStatistics :=
  let stats := row.getD {}
  { stats with
    totalThreats := stats.totalThreats + 1
    urgentThreats := stats.urgentThreats + (if isUrgent = some true then 1 else 0)
    totalAmountLostDaily := stats.totalAmountLostDaily +
      (match amountLost with
       | some a => if a > 0 then a else 0
       | none => 0) }

/-- Priority of an `InformationRequest`, ordered `NORMAL < HIGH < URGENT`. -/
inductive Priority where
  | NORMAL
  | HIGH
  | URGENT
  deriving Repr, DecidableEq

/-- Numeric rank of a priority under `NORMAL < HIGH < URGENT`. -/
def Priority.rank : Priority → Nat
  | .NORMAL => 0
  | .HIGH => 1
  | .URGENT => 2

/-- Maximum of two priorities under `NORMAL < HIGH < URGENT`. -/
def Priority.max (p q : Priority) : Priority :=
  if q.rank ≤ p.rank then p else q

/-- The priority-upgrade conditional inside `escalateInformationRequestHandler`:
`priority === "URGENT" || (priority === "HIGH" && existing.priority === "NORMAL")
? priority : existing.priority`. -/
def upgradedPriority (priority oldPriority : Priority) : Priority :=
  if priority = .URGENT ∨ (priority = .HIGH ∧ oldPriority = .NORMAL) then priority
  else oldPriority

/-- One row of the `InformationRequest` table (the columns the handlers read or
write; timestamp columns are omitted — no embedded control flow reads them). -/
structure InformationRequest where
  topic : String
  category : String
  ministry : Option String := none
  requesterPhone : String
  priority : Priority := .NORMAL
  requestCount : Nat
  isDataGap : Bool
  wasAnswered : Bool
  deriving Repr, DecidableEq

/-- One source citation extracted from a retrieval match (the float relevance
score stored alongside is omitted). -/
structure RagSource where
  filename : String
  sourceUrl : Option String := none
  chunkIndex : Option Nat := none
  deriving Repr, DecidableEq

/-- One row of the `Verification` table (the columns written at creation). -/
structure Verification where
  claim : String
  category : String
  requesterPhone : String
  status : String
  result : String
  ragResponse : String
  sources : List RagSource := []
  responseTimeMs : Nat
  deriving Repr, DecidableEq

/-- One row of the `CyberThreatReport` table. -/
structure CyberThreatReport where
  id : Nat
  threatType : String
  description : String
  platform : String
  amountLost : Option Nat := none
  perpetratorContact : Option String := none
  dateOccurred : Option String := none
  isUrgent : Bool
  reporterPhone : String
  status : String
  referenceNumber : String
  hasEvidence : Bool := false
  deriving Repr, DecidableEq

/-- The persistent store the tool handlers mutate: the three tables the claims
touch plus today's `DailyStatistics` row (`none` before the first event of the
day) and the auto-increment id counter of the threat-report table. -/
structure Store where
  verifications : List Verification := []
  informationRequests : List InformationRequest := []
  threatReports : List CyberThreatReport := []
  todayStats : Option DailyStatistics := none
  nextThreatId : Nat := 1
  deriving Repr, DecidableEq

/-- Replace the first list entry satisfying `p`.  This models a Prisma `update`
keyed by the primary key of the row returned by a `findFirst` with the same
filter: primary keys are unique, so exactly the found row is rewritten. -/
def updateFirst (p : α → Bool) (f : α → α) : List α → List α
  | [] => []
  | x :: xs => if p x then f x :: xs else x :: updateFirst p f xs

/-- JavaScript `s.substring(0, n)`: the first `n` characters of `s`. -/
def truncateTo (n : Nat) (s : String) : String := String.mk (s.toList.take n)

/-- JavaScript `s.padStart(n, c)`. -/
def padStart (s : String) (n : Nat) (c : Char) : String :=
  String.mk (List.replicate (n - s.toList.length) c ++ s.toList)

/-- Helper for JavaScript `s.includes(pat)` on exploded strings: does `p`
occur as a contiguous run inside the second list? -/
def infixCheck (p : List Char) : List Char → Bool
  | [] => p.isEmpty
  | c :: rest => p.isPrefixOf (c :: rest) || infixCheck p rest

/-- JavaScript `s.includes(pat)`. -/
def containsSubstr (s pat : String) : Bool := infixCheck pat.toList s.toList

/-- The `categoryMap` lookup of `verifyInformationHandler`, including the
`|| "OTHER"` default for unknown keys. -/
def categoryMap (category : String) : String :=
  if category = "Government Policy" then "GOVERNMENT_POLICY"
  else if category = "Health" then "HEALTH"
  else if category = "Security" then "SECURITY"
  else if category = "Financial" then "FINANCIAL"
  else if category = "Legal" then "LEGAL"
  else if category = "Administrative" then "ADMINISTRATIVE"
  else if category = "Other" then "OTHER"
  else "OTHER"

/-- One entry of the retrieval service's `matches[]` array (metadata fields;
the float `score` is omitted — it is only copied into stored citations). -/
structure RagMatch where
  text : Option String := none
  filename : Option String := none
  sourceUrl : Option String := none
  chunkIndex : Option Nat := none
  deriving Repr, DecidableEq

/-- Outcome of the retrieval-service HTTP call made by
`verifyInformationHandler`: either a (possibly empty) `matches[]` array, or a
thrown transport error. -/
inductive RagOutcome where
  | success (ragMatches : List RagMatch)
  | failure
  deriving Repr, DecidableEq

/-- Fixed retrieval text used when the `matches[]` array is empty. -/
def noMatchesReply : String :=
  "No relevant information found in government documents for this query."

/-- Fixed retrieval text used when the retrieval-service call throws. -/
def ragFailureReply : String :=
  "Unable to verify this information against official sources at this time. Please check official government channels or contact relevant ministries directly."

/-- The substring test `ragResponse.includes(...)` that sets the `isDataGap`
flag of the returned result. -/
def dataGapMarker : String := "No relevant information found in government documents"

/-- Result record returned by `verify_information` (the fields the claims
read; the id, echoed claim/category and the fixed instruction text for the
model are omitted). -/
structure VerifyResult where
  success : Bool
  ragResponse : String := ""
  isDataGap : Bool := false
  deriving Repr, DecidableEq

/-- The retrieval text assembled from a non-empty `matches[]` array: the top
three matches' metadata texts, each tagged `[Source i]`, joined by blank
lines, under a fixed header. -/
def combinedRagText (ragMatches : List RagMatch) : String :=
  "Based on official government documents:\n\n" ++
    String.intercalate "\n\n"
      ((ragMatches.take 3).enum.map
        (fun p => "[Source " ++ toString (p.1 + 1) ++ "] " ++ (p.2.text.getD "No text available")))

/-- The citations extracted from a non-empty `matches[]` array. -/
def extractedSources (ragMatches : List RagMatch) : List RagSource :=
  (ragMatches.take 3).map
    (fun m => { filename := m.filename.getD "Unknown", sourceUrl := m.sourceUrl,
                chunkIndex := m.chunkIndex })

/-- The data-gap lookup filter of `verifyInformationHandler`: the `findFirst`
matches on the truncated topic and the category only (it does NOT filter on
`isDataGap` or `wasAnswered`, unlike `escalateInformationRequestHandler`). -/
def verifyGapMatch (key categoryEnum : String) (r : InformationRequest) : Bool :=
  r.topic == key && r.category == categoryEnum

/-- `verifyInformationHandler` (`src/tools/verification.ts`).  `retrieval` is
the outcome of the external retrieval call; `elapsedMs` is the measured
`Date.now() - startTime` response time.  On an empty `matches[]` array the
handler upserts an `InformationRequest` keyed on
(`claim.substring(0, 500)`, mapped category); on every path it then appends a
`PENDING` `Verification` row and feeds the aggregator. -/
def verifyInformationHandler (st : Store) (retrieval : RagOutcome)
    (claim category phone : String) (elapsedMs : Nat) : Store × VerifyResult :=
  let categoryEnum := categoryMap category
  let afterRag : Store × String × List RagSource :=
    match retrieval with
    | .success ragMatches =>
        if ragMatches.length > 0 then
          (st, combinedRagText ragMatches, extractedSources ragMatches)
        else
          let key := truncateTo 500 claim
          let newRow : InformationRequest :=
            { topic := key, category := categoryEnum, ministry := none,
              requesterPhone := phone, priority := .NORMAL, requestCount := 1,
              isDataGap := true, wasAnswered := false }
          let requests1 :=
            match st.informationRequests.find? (verifyGapMatch key categoryEnum) with
            | some _ =>
                updateFirst (verifyGapMatch key categoryEnum)
                  (fun r => { r with requestCount := r.requestCount + 1 })
                  st.informationRequests
            | none => st.informationRequests ++ [newRow]
          ({ st with informationRequests := requests1 }, noMatchesReply, [])
    | .failure => (st, ragFailureReply, [])
  let st1 := afterRag.1
  let ragResponse := afterRag.2.1
  let sources := afterRag.2.2
  let verification : Verification :=
    { claim := claim, category := categoryEnum, requesterPhone := phone,
      status := "PENDING", result := ragResponse, ragResponse := ragResponse,
      sources := sources, responseTimeMs := elapsedMs }
  let st2 := { st1 with verifications := st1.verifications ++ [verification] }
  let stats3 := updateDailyStatisticsForVerification st2.todayStats "PENDING" (some elapsedMs)
  let st3 := { st2 with todayStats := some stats3 }
  (st3, { success := true, ragResponse := ragResponse,
          isDataGap := containsSubstr ragResponse dataGapMarker })

/-- The `threatTypeMap` lookup of `reportCyberThreatHandler`, including the
`|| "OTHER"` default. -/
def threatTypeMap (threatType : String) : String :=
  if threatType = "Romance Scam" then "ROMANCE_SCAM"
  else if threatType = "Investment Fraud" then "INVESTMENT_FRAUD"
  else if threatType = "Impersonation" then "IMPERSONATION"
  else if threatType = "Phishing" then "PHISHING"
  else if threatType = "Mobile Money Fraud" then "MOBILE_MONEY_FRAUD"
  else if threatType = "Job Scam" then "JOB_SCAM"
  else if threatType = "Lottery/Prize Scam" then "LOTTERY_PRIZE_SCAM"
  else if threatType = "Blackmail/Sextortion" then "BLACKMAIL_SEXTORTION"
  else "OTHER"

/-- Arguments of `report_cyber_threat`; the optional fields arrive possibly
absent from the model's argument payload. -/
structure ThreatArgs where
  threatType : String
  description : String
  platform : String
  amountLost : Option Nat := none
  perpetratorContact : Option String := none
  dateOccurred : Option String := none
  isUrgent : Option Bool := none
  deriving Repr, DecidableEq

/-- Result record returned by `report_cyber_threat` (fields the claims read). -/
structure ThreatResult where
  success : Bool
  reportId : Nat := 0
  referenceNumber : String := ""
  deriving Repr, DecidableEq

/-- JavaScript `x || null` on an optional number: `0` is falsy. -/
def orNullNat : Option Nat → Option Nat
  | some v => if v ≠ 0 then some v else none
  | none => none

/-- JavaScript `x || null` on an optional string: `""` is falsy. -/
def orNullStr : Option String → Option String
  | some s => if s ≠ "" then some s else none
  | none => none

/-- `reportCyberThreatHandler` (`src/tools/verification.ts`).  `year` is
`new Date().getFullYear()`; `hasMedia` is the media-context flag.  The row is
created with a temporary reference number, re-keyed to
`TH-<year>-<zero-padded id>` once the auto-increment id is known, and the
aggregator's threat counters are fed. -/
def reportCyberThreatHandler (st : Store) (a : ThreatArgs) (phone : String)
    (year : Nat) (hasMedia : Bool) : Store × ThreatResult :=
  let threatTypeEnum := threatTypeMap a.threatType
  let urgent := a.isUrgent = some true
  let tempRef := "TH-" ++ toString year ++ "-PENDING"
  let id := st.nextThreatId
  let report : CyberThreatReport :=
    { id := id, threatType := threatTypeEnum, description := a.description,
      platform := a.platform, amountLost := orNullNat a.amountLost,
      perpetratorContact := orNullStr a.perpetratorContact,
      dateOccurred := orNullStr a.dateOccurred,
      isUrgent := decide urgent, reporterPhone := phone,
      status := if urgent then "URGENT" else "PENDING",
      referenceNumber := tempRef, hasEvidence := hasMedia }
  let reports1 := st.threatReports ++ [report]
  let st1 := { st with threatReports := reports1, nextThreatId := id + 1 }
  let refNumber := "TH-" ++ toString year ++ "-" ++ padStart (toString id) 5 '0'
  let reports2 :=
    updateFirst (fun r => r.id == id) (fun r => { r with referenceNumber := refNumber })
      st1.threatReports
  let st2 := { st1 with threatReports := reports2 }
  let stats3 := updateDailyStatisticsForThreat st2.todayStats a.isUrgent a.amountLost
  let st3 := { st2 with todayStats := some stats3 }
  (st3, { success := true, reportId := id, referenceNumber := refNumber })

/-- The escalation lookup filter of `escalateInformationRequestHandler`: the
`findFirst` matches on topic, category, `isDataGap: true` and
`wasAnswered: false`. -/
def escalateKeyMatch (topic category : String) (r : InformationRequest) : Bool :=
  r.topic == topic && r.category == category && r.isDataGap && !r.wasAnswered

/-- Result record returned by `escalate_information_request`. -/
structure EscalateResult where
  success : Bool
  requestCount : Nat := 0
  deriving Repr, DecidableEq

/-- `escalateInformationRequestHandler` (`src/tools/verification.ts`).  Upsert
keyed on (topic, category, unanswered data gap): an existing row gets its
`requestCount` incremented and its priority upgraded via `upgradedPriority`;
otherwise a fresh row with `requestCount = 1` is inserted. -/
def escalateInformationRequestHandler (st : Store) (topic category : String)
    (priority : Priority) (ministry : Option String) (phone : String) :
    Store × EscalateResult :=
  match st.informationRequests.find? (escalateKeyMatch topic category) with
  | some existing =>
      let requests1 :=
        updateFirst (escalateKeyMatch topic category)
          (fun r => { r with requestCount := r.requestCount + 1,
                             priority := upgradedPriority priority r.priority })
          st.informationRequests
      ({ st with informationRequests := requests1 },
       { success := true, requestCount := existing.requestCount + 1 })
  | none =>
      let newRequest : InformationRequest :=
        { topic := topic, category := category, ministry := ministry,
          requesterPhone := phone, priority := priority, requestCount := 1,
          isDataGap := true, wasAnswered := false }
      ({ st with informationRequests := st.informationRequests ++ [newRequest] },
       { success := true, requestCount := 1 })

/-! ## Orchestration layer (`server/src/gov-verifyAgent.ts`) -/

/-- The JSON-object argument bag of a tool call, as produced by a successful
`JSON.parse` (loosely: string-valued keys suffice for the orchestration
logic, which never inspects the bag itself). -/
abbrev ToolArgs := List (String × String)

/-- The structured result object every tool execution reduces to (handlers may
attach further domain fields; the orchestration logic reads none of them). -/
structure ToolResult where
  success : Bool
  error : Option String := none
  message : Option String := none
  deriving Repr, DecidableEq

/-- One tool call requested by the model.  `parsedArguments` is the outcome of
`JSON.parse(toolCall.function.arguments)`: `none` models a parse failure. -/
structure ToolCall where
  id : String
  type : String
  name : String
  parsedArguments : Option ToolArgs := none
  deriving Repr, DecidableEq

/-- One transcript message.  `assistantToolCalls` is the assistant message the
model returns with `finish_reason = "tool_calls"`; `tool` carries a result
correlated by `tool_call_id` (the `JSON.stringify` serialisation of the result
object is elided — the structured result is stored directly). -/
inductive Msg where
  | system (content : String)
  | user (content : String)
  | assistantContent (content : String)
  | assistantToolCalls (calls : List ToolCall)
  | tool (callId : String) (content : ToolResult)
  deriving Repr, DecidableEq

/-- The `role` tag a transcript message carries on the wire. -/
def roleOf : Msg → String
  | .system _ => "system"
  | .user _ => "user"
  | .assistantContent _ => "assistant"
  | .assistantToolCalls _ => "assistant"
  | .tool _ _ => "tool"

/-- A tool handler as seen by `executeFunction`: it may mutate the store and
either return a result or throw (`Except.error` carries the fault message).
A throwing handler keeps whatever store writes it made before the fault. -/
abbrev Handler := ToolArgs → Store → Store × Except String ToolResult

/-- The static name-to-handler lookup (`toolHandlers[functionName]`). -/
abbrev Registry := String → Option Handler

/-- The structured failure returned for an unregistered tool name. -/
def unknownFunctionResult : ToolResult :=
  { success := false, error := some "Unknown function",
    message := some "Sorry, that operation is not available." }

/-- The structured failure a caught handler-level fault is converted into. -/
def caughtFaultResult (e : String) : ToolResult :=
  { success := false, error := some e,
    message := some "Unable to complete this operation at this time." }

/-- The structured failure produced when a call's argument payload fails to
parse. -/
def parseFailureResult : ToolResult :=
  { success := false, error := some "Invalid tool arguments format" }

/-- `executeFunction` (`server/src/gov-verifyAgent.ts`): dispatch through the
registry; an unregistered name yields a structured failure, and a handler
fault is caught and converted into a structured failure. -/
def executeFunction (registry : Registry) (functionName : String)
    (args : ToolArgs) (st : Store) : Store × ToolResult :=
  match registry functionName with
  | none => (st, unknownFunctionResult)
  | some handler =>
      match handler args st with
      | (st1, .ok result) => (st1, result)
      | (st1, .error e) => (st1, caughtFaultResult e)

/-- Processing of one requested tool call inside the loop body: non-function
call entries map to `null` (later filtered out); a parse failure yields a
structured failure message; otherwise the matching handler runs through
`executeFunction`. -/
def runToolCall (registry : Registry) (st : Store) (tc : ToolCall) :
    Store × Option Msg :=
  if tc.type = "function" then
    match tc.parsedArguments with
    | none => (st, some (.tool tc.id parseFailureResult))
    | some args =>
        let out := executeFunction registry tc.name args st
        (out.1, some (.tool tc.id out.2))
  else (st, none)

/-- The fan-out over one model response's `tool_calls`, reassembled in call
order with the `null` entries filtered out (the database effects of the
concurrently dispatched handlers are serialised in call order here). -/
def processToolCalls (registry : Registry) (st : Store) :
    List ToolCall → Store × List Msg
  | [] => (st, [])
  | tc :: rest =>
      let out := runToolCall registry st tc
      let outRest := processToolCalls registry out.1 rest
      (outRest.1, (match out.2 with | some m => [m] | none => []) ++ outRest.2)

/-- One chat completion returned by the model: the stop reason, the optional
plain content and the requested tool calls. -/
structure Completion where
  finishReason : String
  content : Option String := none
  toolCalls : List ToolCall := []
  deriving Repr, DecidableEq

/-- Outcome of one chat-completion request: a completion, or a thrown
transport/API error. -/
inductive OracleAnswer where
  | reply (c : Completion)
  | failure
  deriving Repr, DecidableEq

/-- The language model as an external oracle: the answer to the i-th
chat-completion request of the turn. -/
abbrev Oracle := Nat → OracleAnswer

/-- How the `while` loop of `processMessage` ended. -/
inductive LoopExit where
  | finished (c : Completion)
  | bailed
  | apiError
  deriving Repr, DecidableEq

/-- Final state of the tool-calling loop: the transcript so far, the store,
the number of chat-completion requests issued in the whole turn, and how the
loop ended. -/
structure LoopOut where
  messages : List Msg
  store : Store
  requests : Nat
  exit : LoopExit
  deriving Repr, DecidableEq

/-- `maxLoops` in `processMessage`. -/
def maxLoops : Nat := 10

/-- The `while (finish_reason === "tool_calls" && loopCount < maxLoops)` loop
of `processMessage`, written with `fuel = maxLoops - loopCount`: each
iteration appends the assistant tool-call message and the reassembled tool
results, then issues the next chat-completion request.  `fuel = 0` means
`loopCount >= maxLoops`, which the code answers with the bail reply no matter
what the last completion looked like. -/
def toolLoop (oracle : Oracle) (registry : Registry) :
    Nat → Nat → Completion → List Msg → Store → Nat → LoopOut
  | 0, _, _, messages, st, requests =>
      { messages := messages, store := st, requests := requests, exit := .bailed }
  | fuel + 1, loopCount, c, messages, st, requests =>
      if c.finishReason = "tool_calls" then
        let messages1 := messages ++ [Msg.assistantToolCalls c.toolCalls]
        let out := processToolCalls registry st c.toolCalls
        let messages2 := messages1 ++ out.2
        match oracle (loopCount + 1) with
        | .failure =>
            { messages := messages2, store := out.1, requests := requests + 1,
              exit := .apiError }
        | .reply c2 =>
            toolLoop oracle registry fuel (loopCount + 1) c2 messages2 out.1 (requests + 1)
      else
        { messages := messages, store := st, requests := requests, exit := .finished c }

/-! ## Session store -/

/-- One conversation session: the transcript and the last-activity timestamp
(milliseconds since the epoch). -/
structure Conversation where
  messages : List Msg
  lastActivity : Int
  deriving Repr, DecidableEq

/-- The `conversationHistory` map, in insertion order (JavaScript `Map`
iteration order). -/
abbrev History := List (String × Conversation)

/-- The agent's fixed system instruction text (abridged — its content is never
inspected by the embedded control flow). -/
def systemPromptText : String :=
  "You are Sierra Leone Official Government Information Verification Assistant and Cyber Threat Watchdog."

/-- `conversationHistory.get(phoneE164)`. -/
def lookupConversation (h : History) (phone : String) : Option Conversation :=
  match h.find? (fun e => e.1 == phone) with
  | some e => some e.2
  | none => none

/-- `getOrCreateConversation`: an existing session has its `lastActivity`
refreshed and its transcript returned; otherwise a fresh session seeded with
the single system message is inserted. -/
def getOrCreateConversation (now : Int) (h : History) (phone : String) :
    History × List Msg :=
  match lookupConversation h phone with
  | some conv =>
      (updateFirst (fun e => e.1 == phone)
        (fun e => (e.1, { e.2 with lastActivity := now })) h,
       conv.messages)
  | none =>
      let messages : List Msg := [.system systemPromptText]
      (h ++ [(phone, { messages := messages, lastActivity := now })], messages)

/-- The idle threshold of the sweep: one hour in milliseconds. -/
def idleThresholdMs : Int := 60 * 60 * 1000

/-- `cleanupInactiveConversations`: delete every session whose `lastActivity`
is strictly older than one hour before the sweep time. -/
def cleanupInactiveConversations (now : Int) (h : History) : History :=
  h.filter (fun e => !decide (e.2.lastActivity < now - idleThresholdMs))

/-! ## `processMessage` -/

/-- The three fixed failure replies of `processMessage`, and how a turn
ended. -/
inductive TurnEnd where
  | content
  | fallback
  | bailed
  | errored
  deriving Repr, DecidableEq

/-- Reply returned when the iteration bound is reached. -/
def bailReply : String := "Sorry, the request is taking too long. Please try again."

/-- Reply returned when the final completion carries no (truthy) content. -/
def fallbackReply : String := "Sorry, I encountered an issue processing your request. Please try again."

/-- Reply returned by the catch-all handler of the turn. -/
def errorReply : String := "Sorry, I encountered an error. Please try again later."

/-- The full agent state: session map plus persistent store. -/
structure AgentState where
  history : History
  store : Store
  deriving Repr, DecidableEq

/-- Everything one turn produces: the new agent state, the reply string, the
number of chat-completion requests issued, and which path ended the turn. -/
structure TurnResult where
  state : AgentState
  reply : String
  requests : Nat
  outcome : TurnEnd
  deriving Repr, DecidableEq

/-- Store the (possibly partially) mutated transcript back into the session
entry for `phone` (the JavaScript code mutates the array in place, so every
push made before an abort is retained). -/
def writeBackMessages (h : History) (phone : String) (messages : List Msg) : History :=
  updateFirst (fun e => e.1 == phone)
    (fun e => (e.1, { e.2 with messages := messages })) h

/-- The post-loop tail of `processMessage`: the `loopCount >= maxLoops` bail
check, then the final-content check (a truthy final content is appended to
the transcript as an assistant message and returned; otherwise one of the
fixed failure replies is returned and nothing further is appended). -/
def finishTurn (history1 : History) (phone : String) (out : LoopOut) : TurnResult :=
  match out.exit with
  | .bailed =>
      { state := { history := writeBackMessages history1 phone out.messages,
                   store := out.store },
        reply := bailReply, requests := out.requests, outcome := .bailed }
  | .apiError =>
      { state := { history := writeBackMessages history1 phone out.messages,
                   store := out.store },
        reply := errorReply, requests := out.requests, outcome := .errored }
  | .finished c =>
      match c.content with
      | some content =>
          if content ≠ "" then
            { state := { history := writeBackMessages history1 phone
                           (out.messages ++ [Msg.assistantContent content]),
                         store := out.store },
              reply := content, requests := out.requests, outcome := .content }
          else
            { state := { history := writeBackMessages history1 phone out.messages,
                         store := out.store },
              reply := fallbackReply, requests := out.requests, outcome := .fallback }
      | none =>
          { state := { history := writeBackMessages history1 phone out.messages,
                       store := out.store },
            reply := fallbackReply, requests := out.requests, outcome := .fallback }

/-- `processMessage` (`server/src/gov-verifyAgent.ts`): get-or-create the
session, append the contextual user message, run the bounded tool-calling
loop, then `finishTurn`.  A thrown initial chat-completion request hits the
catch-all handler (fixed apology, transcript retained as pushed).  `now` is
the wall-clock time of the turn; the optional location tag of the contextual
envelope is elided (turns without a shared location). -/
def processMessage (oracle : Oracle) (registry : Registry) (now : Int)
    (st : AgentState) (userMessage phone : String) : TurnResult :=
  let opened := getOrCreateConversation now st.history phone
  let history1 := opened.1
  let contextualMessage := "[User texting from: " ++ phone ++ "]" ++ "\n\n" ++ userMessage
  let messages1 := opened.2 ++ [Msg.user contextualMessage]
  match oracle 0 with
  | .failure =>
      { state := { history := writeBackMessages history1 phone messages1, store := st.store },
        reply := errorReply, requests := 1, outcome := .errored }
  | .reply c0 =>
      finishTurn history1 phone (toolLoop oracle registry maxLoops 0 c0 messages1 st.store 1)

/-! ## Helper lemmas -/

theorem length_updateFirst (p : α → Bool) (f : α → α) (l : List α) :
    (updateFirst p f l).length = l.length := by
  induction l with
  | nil => rfl
  | cons x xs ih => by_cases h : p x <;> simp [updateFirst, h, ih]

theorem totalVerifications_updateForVerification (row : Option DailyStatistics)
    (status : String) (rt : Option Nat) :
    (updateDailyStatisticsForVerification row status rt).totalVerifications
      = (row.getD {}).totalVerifications + 1 := by
  unfold updateDailyStatisticsForVerification
  cases rt with
  | none => rfl
  | some t => by_cases h : t = 0 <;> simp [h]

theorem totalThreats_updateForThreat (row : Option DailyStatistics)
    (isUrgent : Option Bool) (amountLost : Option Nat) :
    (updateDailyStatisticsForThreat row isUrgent amountLost).totalThreats
      = (row.getD {}).totalThreats + 1 := rfl

/-! ## Claim theorems -/

/-- C2: after recording a (truthy) response-time sample `t` into a day's row,
the stored average equals `round((oldAvg * oldCount + t) / (oldCount + 1))`
with `oldCount` the pre-increment total-verification counter (a missing row
counts as the zeroed row), and the counter itself is incremented; in
particular, recording samples 100 then 300 into an initially empty day leaves
an average of 200. -/
theorem verification_avg_running_formula (row : Option DailyStatistics)
    (status : String) (t : Nat) (ht : t ≠ 0) :
    (updateDailyStatisticsForVerification row status (some t)).avgResponseTimeMs
      = some (jsRoundDiv
          ((row.getD {}).avgResponseTimeMs.getD 0 * (row.getD {}).totalVerifications + t)
          ((row.getD {}).totalVerifications + 1))
    ∧ (updateDailyStatisticsForVerification row status (some t)).totalVerifications
      = (row.getD {}).totalVerifications + 1
    ∧ (updateDailyStatisticsForVerification
        (some (updateDailyStatisticsForVerification none "PENDING" (some 100)))
        "PENDING" (some 300)).avgResponseTimeMs = some 200 := by
  refine ⟨?_, totalVerifications_updateForVerification row status (some t), by decide⟩
  unfold updateDailyStatisticsForVerification
  simp only [ht, ne_eq, not_false_eq_true, if_true]
  by_cases h0 : (row.getD {}).totalVerifications > 0
  · simp [h0]
  · have h0' : (row.getD {}).totalVerifications = 0 := by omega
    simp [h0', jsRoundDiv_one]

/-- C2 witness: the running-average formula applied at a concrete input (a
first sample of 100 into an empty day). -/
theorem verification_avg_running_formula_witness :
    (updateDailyStatisticsForVerification none "PENDING" (some 100)).avgResponseTimeMs
      = some (jsRoundDiv
          (((none : Option DailyStatistics).getD {}).avgResponseTimeMs.getD 0 *
              ((none : Option DailyStatistics).getD {}).totalVerifications + 100)
          (((none : Option DailyStatistics).getD {}).totalVerifications + 1)) :=
  (verification_avg_running_formula none "PENDING" 100 (by decide)).1

/-- Two urgent same-day threat reports with amounts 500000 and 250000 (the
scenario of C5). -/
def threatScenarioStore : Store :=
  (reportCyberThreatHandler
    (reportCyberThreatHandler {}
      { threatType := "Mobile Money Fraud", description := "scam", platform := "WhatsApp",
        amountLost := some 500000, isUrgent := some true } "+23276000001" 2025 false).1
    { threatType := "Mobile Money Fraud", description := "second scam", platform := "WhatsApp",
      amountLost := some 250000, isUrgent := some true } "+23276000002" 2025 false).1

/-- C5: every successful `report_cyber_threat` call increments the day's
`totalThreats` by exactly one, increments `urgentThreats` by exactly one iff
`isUrgent` was true, and adds the amount lost exactly when it is present and
positive; two same-day urgent calls with amounts 500000 and 250000 leave
`totalAmountLostDaily = 750000` and `urgentThreats = 2`. -/
theorem threat_report_daily_counters (st : Store) (a : ThreatArgs) (phone : String)
    (year : Nat) (hasMedia : Bool) :
    ((reportCyberThreatHandler st a phone year hasMedia).1.todayStats.getD {}).totalThreats
        = (st.todayStats.getD {}).totalThreats + 1
    ∧ ((reportCyberThreatHandler st a phone year hasMedia).1.todayStats.getD {}).urgentThreats
        = (st.todayStats.getD {}).urgentThreats + (if a.isUrgent = some true then 1 else 0)
    ∧ ((reportCyberThreatHandler st a phone year hasMedia).1.todayStats.getD {}).totalAmountLostDaily
        = (st.todayStats.getD {}).totalAmountLostDaily
          + (match a.amountLost with
             | some v => if v > 0 then v else 0
             | none => 0)
    ∧ (threatScenarioStore.todayStats.getD {}).totalAmountLostDaily = 750000
    ∧ (threatScenarioStore.todayStats.getD {}).urgentThreats = 2 := by
  refine ⟨?_, ?_, ?_, by decide, by decide⟩ <;>
    simp [reportCyberThreatHandler, updateDailyStatisticsForThreat]

/-- C6: on every execution path, creating a `Verification` row comes with
exactly one increment of the day's `totalVerifications`, and creating a
`CyberThreatReport` row comes with exactly one increment of the day's
`totalThreats` (record creation and statistics increment happen together). -/
theorem creation_increments_daily_statistics (st : Store) (retrieval : RagOutcome)
    (claim category phone : String) (elapsedMs : Nat)
    (a : ThreatArgs) (year : Nat) (hasMedia : Bool) :
    ((verifyInformationHandler st retrieval claim category phone elapsedMs).1.verifications.length
        = st.verifications.length + 1
      ∧ ((verifyInformationHandler st retrieval claim category phone elapsedMs).1.todayStats.getD {}).totalVerifications
        = (st.todayStats.getD {}).totalVerifications + 1)
    ∧ ((reportCyberThreatHandler st a phone year hasMedia).1.threatReports.length
        = st.threatReports.length + 1
      ∧ ((reportCyberThreatHandler st a phone year hasMedia).1.todayStats.getD {}).totalThreats
        = (st.todayStats.getD {}).totalThreats + 1) := by
  refine ⟨⟨?_, ?_⟩, ?_, ?_⟩
  · cases retrieval with
    | failure => simp [verifyInformationHandler]
    | success ragMatches =>
        by_cases h : ragMatches.length > 0
        · simp [verifyInformationHandler, h]
        · cases hf : st.informationRequests.find?
            (verifyGapMatch (truncateTo 500 claim) (categoryMap category)) <;>
            simp [verifyInformationHandler, h, hf]
  · cases retrieval with
    | failure =>
        simp [verifyInformationHandler, totalVerifications_updateForVerification]
    | success ragMatches =>
        by_cases h : ragMatches.length > 0
        · simp [verifyInformationHandler, h, totalVerifications_updateForVerification]
        · cases hf : st.informationRequests.find?
            (verifyGapMatch (truncateTo 500 claim) (categoryMap category)) <;>
            simp [verifyInformationHandler, h, hf, totalVerifications_updateForVerification]
  · simp [reportCyberThreatHandler, length_updateFirst]
  · simp [reportCyberThreatHandler, totalThreats_updateForThreat]

theorem find?_of_filter_singleton (p : α → Bool) (l : List α) (r : α)
    (hl : l.filter p = [r]) : l.find? p = some r := by
  induction l with
  | nil => simp at hl
  | cons x xs ih =>
      by_cases hx : p x
      · have h1 : x = r := by
          have := hl
          rw [List.filter_cons_of_pos hx] at this
          exact (List.cons.injEq _ _ _ _ ▸ this).1
        rw [List.find?_cons_of_pos _ hx, h1]
      · have h1 : xs.filter p = [r] := by
          have := hl
          rwa [List.filter_cons_of_neg (by simpa using hx)] at this
        rw [List.find?_cons_of_neg _ hx]
        exact ih h1

theorem filter_updateFirst_singleton (p : α → Bool) (f : α → α) (l : List α) (r : α)
    (hl : l.filter p = [r]) (hf : p (f r) = true) :
    (updateFirst p f l).filter p = [f r] := by
  induction l with
  | nil => simp at hl
  | cons x xs ih =>
      by_cases hx : p x
      · have h1 : x = r ∧ xs.filter p = [] := by
          have := hl
          rw [List.filter_cons_of_pos hx] at this
          exact ⟨(List.cons.injEq _ _ _ _ ▸ this).1, (List.cons.injEq _ _ _ _ ▸ this).2⟩
        rw [h1.1] at hx ⊢
        simp [updateFirst, hx, List.filter_cons, hf, h1.2]
      · have h1 : xs.filter p = [r] := by
          have := hl
          rwa [List.filter_cons_of_neg (by simpa using hx)] at this
        simp [updateFirst, hx, List.filter_cons, ih h1]

/-- Repeated invocations of `escalate_information_request` with a fixed
(topic, category) and a list of priorities, folding the store through the
handler. -/
def runEscalations (st : Store) (topic category phone : String) :
    List Priority → Store
  | [] => st
  | p :: ps =>
      runEscalations
        (escalateInformationRequestHandler st topic category p none phone).1
        topic category phone ps

theorem escalate_step_existing (st : Store) (topic category phone : String)
    (p : Priority) (r : InformationRequest)
    (hl : st.informationRequests.filter (escalateKeyMatch topic category) = [r]) :
    ((escalateInformationRequestHandler st topic category p none phone).1.informationRequests.filter
        (escalateKeyMatch topic category)
      = [{ r with requestCount := r.requestCount + 1,
                  priority := upgradedPriority p r.priority }])
    ∧ (escalateInformationRequestHandler st topic category p none phone).1.informationRequests.length
      = st.informationRequests.length := by
  have hfind : st.informationRequests.find? (escalateKeyMatch topic category) = some r :=
    find?_of_filter_singleton _ _ _ hl
  have hrmem : escalateKeyMatch topic category r = true := by
    have hmem : r ∈ st.informationRequests.filter (escalateKeyMatch topic category) := by
      rw [hl]; exact List.mem_singleton_self r
    exact (List.mem_filter.mp hmem).2
  have hfr : escalateKeyMatch topic category
      { r with requestCount := r.requestCount + 1,
               priority := upgradedPriority p r.priority } = true := by
    simpa [escalateKeyMatch] using hrmem
  constructor
  · simp only [escalateInformationRequestHandler, hfind]
    exact filter_updateFirst_singleton _ _ _ _ hl hfr
  · simp [escalateInformationRequestHandler, hfind, length_updateFirst]

theorem escalate_step_new (st : Store) (topic category phone : String) (p : Priority)
    (hl : st.informationRequests.filter (escalateKeyMatch topic category) = []) :
    ((escalateInformationRequestHandler st topic category p none phone).1.informationRequests.filter
        (escalateKeyMatch topic category)
      = [{ topic := topic, category := category, ministry := none, requesterPhone := phone,
           priority := p, requestCount := 1, isDataGap := true, wasAnswered := false }])
    ∧ (escalateInformationRequestHandler st topic category p none phone).1.informationRequests.length
      = st.informationRequests.length + 1 := by
  have hfind : st.informationRequests.find? (escalateKeyMatch topic category) = none := by
    rw [List.find?_eq_none]
    intro x hx
    simpa using (List.filter_eq_nil_iff.mp hl) x hx
  have hnew : escalateKeyMatch topic category
      { topic := topic, category := category, ministry := none, requesterPhone := phone,
        priority := p, requestCount := 1, isDataGap := true,
        wasAnswered := false : InformationRequest } = true := by
    simp [escalateKeyMatch]
  constructor
  · simp [escalateInformationRequestHandler, hfind, List.filter_append, hl,
      List.filter_cons, hnew]
  · simp [escalateInformationRequestHandler, hfind]

theorem runEscalations_existing (topic category phone : String) (ps : List Priority) :
    ∀ (st : Store) (r : InformationRequest),
      st.informationRequests.filter (escalateKeyMatch topic category) = [r] →
      ((runEscalations st topic category phone ps).informationRequests.filter
          (escalateKeyMatch topic category)
        = [{ r with requestCount := r.requestCount + ps.length,
                    priority := ps.foldl (fun q p2 => upgradedPriority p2 q) r.priority }])
      ∧ (runEscalations st topic category phone ps).informationRequests.length
        = st.informationRequests.length := by
  induction ps with
  | nil =>
      intro st r hl
      constructor
      · simpa using hl
      · rfl
  | cons p ps ih =>
      intro st r hl
      have hstep := escalate_step_existing st topic category phone p r hl
      have ihr := ih
        (escalateInformationRequestHandler st topic category p none phone).1
        { r with requestCount := r.requestCount + 1,
                 priority := upgradedPriority p r.priority } hstep.1
      constructor
      · rw [show runEscalations st topic category phone (p :: ps)
              = runEscalations
                  (escalateInformationRequestHandler st topic category p none phone).1
                  topic category phone ps from rfl]
        rw [ihr.1]
        have hcount : r.requestCount + 1 + ps.length = r.requestCount + (ps.length + 1) := by
          omega
        simp [hcount]
      · exact ihr.2.trans hstep.2

theorem upgradedPriority_eq_max (p q : Priority) :
    upgradedPriority p q = Priority.max q p := by
  cases p <;> cases q <;> rfl

theorem foldl_upgraded_eq_foldl_max (ps : List Priority) (init : Priority) :
    ps.foldl (fun q p2 => upgradedPriority p2 q) init = ps.foldl Priority.max init := by
  simp only [upgradedPriority_eq_max]

theorem priorityMax_normal (p : Priority) : Priority.max .NORMAL p = p := by
  cases p <;> rfl

/-- The maximum of a list of priorities under `NORMAL < HIGH < URGENT`
(`NORMAL` is the bottom element, so folding from `NORMAL` computes the
maximum of a non-empty list). -/
def maxPriority (ps : List Priority) : Priority := ps.foldl Priority.max .NORMAL

/-- C4: starting from a store with no unanswered data-gap row for
(topic, category), N = 1 + |ps| calls to `escalate_information_request` with
that key leave exactly one matching row, with `requestCount = N` and priority
the maximum priority requested across the calls (never lowered), and add
exactly one row to the table overall. -/
theorem escalate_upsert_monotone_priority (st : Store) (topic category phone : String)
    (p : Priority) (ps : List Priority)
    (h0 : st.informationRequests.filter (escalateKeyMatch topic category) = []) :
    ((runEscalations st topic category phone (p :: ps)).informationRequests.filter
        (escalateKeyMatch topic category)
      = [{ topic := topic, category := category, ministry := none, requesterPhone := phone,
           priority := maxPriority (p :: ps), requestCount := (p :: ps).length,
           isDataGap := true, wasAnswered := false }])
    ∧ (runEscalations st topic category phone (p :: ps)).informationRequests.length
      = st.informationRequests.length + 1 := by
  have hstep := escalate_step_new st topic category phone p h0
  have ih := runEscalations_existing topic category phone ps
    (escalateInformationRequestHandler st topic category p none phone).1
    { topic := topic, category := category, ministry := none, requesterPhone := phone,
      priority := p, requestCount := 1, isDataGap := true, wasAnswered := false }
    hstep.1
  constructor
  · rw [show runEscalations st topic category phone (p :: ps)
          = runEscalations
              (escalateInformationRequestHandler st topic category p none phone).1
              topic category phone ps from rfl]
    rw [ih.1]
    have hpr : ps.foldl (fun q p2 => upgradedPriority p2 q) p = maxPriority (p :: ps) := by
      rw [foldl_upgraded_eq_foldl_max]
      simp [maxPriority, List.foldl_cons, priorityMax_normal]
    simp [hpr, Nat.add_comm]
  · exact ih.2.trans hstep.2

/-- C4 witness: three calls with priorities HIGH, NORMAL, URGENT starting from
the empty store leave one row with `requestCount = 3` and priority URGENT. -/
theorem escalate_upsert_monotone_priority_witness :
    ((runEscalations {} "fuel prices" "GENERAL" "+23276000000"
        [.HIGH, .NORMAL, .URGENT]).informationRequests.filter
        (escalateKeyMatch "fuel prices" "GENERAL"))
      = [{ topic := "fuel prices", category := "GENERAL", ministry := none,
           requesterPhone := "+23276000000", priority := .URGENT, requestCount := 3,
           isDataGap := true, wasAnswered := false }] := by
  have h := escalate_upsert_monotone_priority {} "fuel prices" "GENERAL" "+23276000000"
    .HIGH [.NORMAL, .URGENT] rfl
  simpa [show maxPriority [Priority.HIGH, .NORMAL, .URGENT] = .URGENT from rfl] using h.1

theorem noMatches_contains_marker :
    containsSubstr noMatchesReply dataGapMarker = true := by decide

/-- An already-answered (non-gap) `InformationRequest` row whose (topic,
category) collide with the claim of the C1 scenario. -/
def answeredOkadaRow : InformationRequest :=
  { topic := "Government bans okada bikes", category := "GOVERNMENT_POLICY",
    ministry := none, requesterPhone := "+23277000001", priority := .NORMAL,
    requestCount := 3, isDataGap := false, wasAnswered := true }

/-- Store holding only the answered row of the C1 counterexample. -/
def answeredOkadaStore : Store := { informationRequests := [answeredOkadaRow] }

/-- C1 counterexample: with zero retrieval matches and a store containing only
an already-answered row for the same (topic, category) — so no
(topic, category, unanswered) row exists and the claim requires a new row
with `requestCount = 1` — the handler instead increments the answered row:
the table still has exactly one row, now with `requestCount = 4` and
`wasAnswered = true`, and no row with `requestCount = 1` was inserted.  The
`findFirst` matches on (topic, category) only, ignoring the unanswered
flag. -/
theorem verifyInformation_upsert_ignores_answered_rows :
    answeredOkadaStore.informationRequests.filter
        (escalateKeyMatch "Government bans okada bikes" "GOVERNMENT_POLICY") = []
    ∧ (verifyInformationHandler answeredOkadaStore (.success [])
        "Government bans okada bikes" "Government Policy" "+23277000002" 120).1.informationRequests.length = 1
    ∧ (∀ r ∈ (verifyInformationHandler answeredOkadaStore (.success [])
          "Government bans okada bikes" "Government Policy" "+23277000002" 120).1.informationRequests,
        r.requestCount = 4 ∧ r.wasAnswered = true) := by
  decide

/-- C1 (amended): against a retrieval service returning zero matches, the
handler (a) appends exactly one `Verification` row with status `PENDING`,
(b) upserts an `InformationRequest` keyed on the truncated claim text and the
mapped category ONLY (the `findFirst` does not restrict to unanswered data
gaps): the first row matching (topic, category) gets `requestCount`
incremented, and when none exists a fresh row with `requestCount = 1` is
inserted, and (c) returns `isDataGap = true`. -/
theorem verifyInformation_zero_matches_behavior (st : Store)
    (claim category phone : String) (elapsedMs : Nat) :
    ((verifyInformationHandler st (.success []) claim category phone elapsedMs).1.verifications
        = st.verifications ++
          [{ claim := claim, category := categoryMap category, requesterPhone := phone,
             status := "PENDING", result := noMatchesReply, ragResponse := noMatchesReply,
             sources := [], responseTimeMs := elapsedMs }])
    ∧ (verifyInformationHandler st (.success []) claim category phone elapsedMs).2.isDataGap = true
    ∧ (st.informationRequests.find?
          (verifyGapMatch (truncateTo 500 claim) (categoryMap category)) = none →
        (verifyInformationHandler st (.success []) claim category phone elapsedMs).1.informationRequests
          = st.informationRequests ++
            [{ topic := truncateTo 500 claim, category := categoryMap category,
               ministry := none, requesterPhone := phone, priority := .NORMAL,
               requestCount := 1, isDataGap := true, wasAnswered := false }])
    ∧ (∀ r0, st.informationRequests.find?
          (verifyGapMatch (truncateTo 500 claim) (categoryMap category)) = some r0 →
        (verifyInformationHandler st (.success []) claim category phone elapsedMs).1.informationRequests
          = updateFirst (verifyGapMatch (truncateTo 500 claim) (categoryMap category))
              (fun r => { r with requestCount := r.requestCount + 1 })
              st.informationRequests) := by
  refine ⟨?_, ?_, ?_, ?_⟩ <;>
    cases hf : st.informationRequests.find?
      (verifyGapMatch (truncateTo 500 claim) (categoryMap category)) <;>
    simp [verifyInformationHandler, hf, noMatches_contains_marker]

/-- C1 witness: the amended behavior at a concrete input — empty store, the
okada-ban claim, zero matches — yields the fresh `requestCount = 1` data-gap
row. -/
theorem verifyInformation_zero_matches_behavior_witness :
    (verifyInformationHandler {} (.success []) "Government bans okada bikes"
        "Government Policy" "+23277000009" 150).1.informationRequests
      = [{ topic := truncateTo 500 "Government bans okada bikes",
           category := categoryMap "Government Policy", ministry := none,
           requesterPhone := "+23277000009", priority := .NORMAL,
           requestCount := 1, isDataGap := true, wasAnswered := false }] := by
  have h := (verifyInformation_zero_matches_behavior {} "Government bans okada bikes"
    "Government Policy" "+23277000009" 150).2.2.1 rfl
  simpa using h

theorem toolLoop_requests_le (oracle : Oracle) (registry : Registry) :
    ∀ (fuel loopCount : Nat) (c : Completion) (messages : List Msg) (st : Store)
      (requests : Nat),
      (toolLoop oracle registry fuel loopCount c messages st requests).requests
        ≤ requests + fuel := by
  intro fuel
  induction fuel with
  | zero =>
      intro loopCount c messages st requests
      simp [toolLoop]
  | succ fuel ih =>
      intro loopCount c messages st requests
      by_cases hc : c.finishReason = "tool_calls"
      · simp only [toolLoop, hc, if_true]
        cases ho : oracle (loopCount + 1) with
        | failure => simp
        | reply c2 =>
            exact le_trans
              (ih (loopCount + 1) c2 _ (processToolCalls registry st c.toolCalls).1
                (requests + 1))
              (by omega)
      · simp [toolLoop, hc]

theorem finishTurn_requests (h : History) (phone : String) (out : LoopOut) :
    (finishTurn h phone out).requests = out.requests := by
  unfold finishTurn
  split
  · rfl
  · rfl
  · split
    · split <;> rfl
    · rfl

theorem finishTurn_bailed_reply (h : History) (phone : String) (out : LoopOut) :
    (finishTurn h phone out).outcome = .bailed → (finishTurn h phone out).reply = bailReply := by
  unfold finishTurn
  split
  · intro _
    rfl
  · intro hx
    simp at hx
  · split
    · split
      · intro hx
        simp at hx
      · intro hx
        simp at hx
    · intro hx
      simp at hx

/-- A model that answers every chat-completion request of the turn with
`finish_reason = "tool_calls"` (and an empty call list). -/
def alwaysToolCalls : Oracle := fun _ =>
  .reply { finishReason := "tool_calls", content := none, toolCalls := [] }

/-- A registry with no tools registered (the orchestration bound does not
depend on registry contents). -/
def emptyRegistry : Registry := fun _ => none

/-- C3 counterexample: against a model that keeps requesting tool calls, one
turn issues exactly 11 chat-completion requests — the initial request plus
the ten loop iterations — which exceeds the claimed maximum of ten; the turn
does end in the fixed "taking too long" reply. -/
theorem orchestration_eleven_round_trips :
    (processMessage alwaysToolCalls emptyRegistry 0 { history := [], store := {} }
        "hello" "+23276000000").requests = 11
    ∧ 10 < (processMessage alwaysToolCalls emptyRegistry 0 { history := [], store := {} }
        "hello" "+23276000000").requests
    ∧ (processMessage alwaysToolCalls emptyRegistry 0 { history := [], store := {} }
        "hello" "+23276000000").reply = bailReply := by
  decide

/-- C3 (amended): every turn issues at most eleven chat-completion requests
(one initial request plus at most `maxLoops = 10` loop iterations), and a
turn that ends by exhausting the iteration bound returns the fixed "taking
too long" reply instead of a model-generated one. -/
theorem orchestration_round_trip_bound (oracle : Oracle) (registry : Registry)
    (now : Int) (st : AgentState) (userMessage phone : String) :
    (processMessage oracle registry now st userMessage phone).requests ≤ 11
    ∧ ((processMessage oracle registry now st userMessage phone).outcome = .bailed →
        (processMessage oracle registry now st userMessage phone).reply = bailReply) := by
  unfold processMessage
  cases h0 : oracle 0 with
  | failure =>
      refine ⟨by norm_num, ?_⟩
      intro hx
      simp at hx
  | reply c0 =>
      constructor
      · rw [finishTurn_requests]
        exact le_trans
          (toolLoop_requests_le oracle registry maxLoops 0 c0 _ st.store 1)
          (by norm_num [maxLoops])
      · exact finishTurn_bailed_reply _ _ _

/-- C3 witness: the round-trip bound applied at the concrete always-tool-calls
input, discharging the bail hypothesis. -/
theorem orchestration_round_trip_bound_witness :
    (processMessage alwaysToolCalls emptyRegistry 0 { history := [], store := {} }
        "hello" "+23276000000").reply = bailReply :=
  (orchestration_round_trip_bound alwaysToolCalls emptyRegistry 0
    { history := [], store := {} } "hello" "+23276000000").2 (by decide)

/-- The correlation ids carried by the tool-role messages of a list. -/
def toolMsgIds (ms : List Msg) : List String :=
  ms.filterMap (fun m => match m with | .tool callId _ => some callId | _ => none)

theorem runToolCall_function (registry : Registry) (st : Store) (tc : ToolCall)
    (ht : tc.type = "function") :
    (runToolCall registry st tc).2
      = some (.tool tc.id
          (match tc.parsedArguments with
           | none => parseFailureResult
           | some args => (executeFunction registry tc.name args st).2)) := by
  unfold runToolCall
  cases tc.parsedArguments <;> simp [ht]

theorem runToolCall_nonfunction (registry : Registry) (st : Store) (tc : ToolCall)
    (ht : ¬ tc.type = "function") :
    (runToolCall registry st tc).2 = none := by
  unfold runToolCall
  simp [ht]

/-- C7 counterexample: a model response requesting one tool call whose `type`
is not `"function"` produces zero appended tool-result messages (the entry
maps to `null` and is filtered out), refuting the one-result-per-requested-
call claim. -/
theorem nonfunction_tool_call_dropped :
    ((processToolCalls emptyRegistry {}
        [{ id := "call_1", type := "custom", name := "noop",
           parsedArguments := none }]).2).length = 0
    ∧ ([({ id := "call_1", type := "custom", name := "noop",
           parsedArguments := none } : ToolCall)]).length = 1 := by
  decide

/-- C7 (amended): within one model response, the tool-result messages appended
equal in number the requested tool calls of type `"function"` (calls of any
other type are dropped), their correlation ids are exactly those calls' ids
in order, and a function-type call whose argument payload fails to parse
still yields exactly one structured failure result under its call id. -/
theorem tool_results_match_function_calls (registry : Registry) (st : Store)
    (calls : List ToolCall) :
    ((processToolCalls registry st calls).2.length
        = (calls.filter (fun tc => tc.type == "function")).length)
    ∧ (toolMsgIds (processToolCalls registry st calls).2
        = (calls.filter (fun tc => tc.type == "function")).map (fun tc => tc.id))
    ∧ (∀ tc2 ∈ calls, tc2.type = "function" → tc2.parsedArguments = none →
        Msg.tool tc2.id parseFailureResult ∈ (processToolCalls registry st calls).2) := by
  induction calls generalizing st with
  | nil =>
      refine ⟨rfl, rfl, ?_⟩
      intro tc2 hmem
      cases hmem
  | cons tc rest ih =>
      obtain ⟨ih1, ih2, ih3⟩ := ih (runToolCall registry st tc).1
      by_cases ht : tc.type = "function"
      · have hrun := runToolCall_function registry st tc ht
        refine ⟨?_, ?_, ?_⟩
        · simp [processToolCalls, hrun, List.filter_cons, ht, ih1]
        · simp [processToolCalls, hrun, List.filter_cons, ht, toolMsgIds, ih2]
          simpa [toolMsgIds] using ih2
        · intro tc2 hmem hty hpa
          rcases List.mem_cons.mp hmem with heq | hmem2
          · subst heq
            rw [hpa] at hrun
            simp [processToolCalls, hrun]
          · have := ih3 tc2 hmem2 hty hpa
            simp [processToolCalls, hrun]
            right
            exact this
      · have hrun := runToolCall_nonfunction registry st tc ht
        refine ⟨?_, ?_, ?_⟩
        · simp [processToolCalls, hrun, List.filter_cons, ht, ih1]
        · simp [processToolCalls, hrun, List.filter_cons, ht, toolMsgIds]
          simpa [toolMsgIds] using ih2
        · intro tc2 hmem hty hpa
          rcases List.mem_cons.mp hmem with heq | hmem2
          · subst heq
            exact absurd hty ht
          · have := ih3 tc2 hmem2 hty hpa
            simp [processToolCalls, hrun]
            exact this

/-- C7 witness: a function-type call with an unparsable payload yields its
structured failure message, correlated by call id. -/
theorem tool_results_match_function_calls_witness :
    Msg.tool "call_9" parseFailureResult ∈
      (processToolCalls emptyRegistry {}
        [{ id := "call_9", type := "function", name := "verify_information",
           parsedArguments := none }]).2 :=
  (tool_results_match_function_calls emptyRegistry {}
    [{ id := "call_9", type := "function", name := "verify_information",
       parsedArguments := none }]).2.2
    { id := "call_9", type := "function", name := "verify_information",
      parsedArguments := none }
    (List.mem_singleton_self _) rfl rfl

/-- C8: `executeFunction` is a total function — it never propagates a fault.
An unregistered name yields the structured unknown-operation failure (the
store untouched); a registered handler that throws has its fault caught and
converted into a structured `success := false` result; a normal handler
result is passed through. -/
theorem executeFunction_total_structured_failures (registry : Registry)
    (functionName : String) (args : ToolArgs) (st : Store) :
    (registry functionName = none →
      executeFunction registry functionName args st
        = (st, { success := false, error := some "Unknown function",
                 message := some "Sorry, that operation is not available." }))
    ∧ (∀ handler st1 e, registry functionName = some handler →
        handler args st = (st1, .error e) →
        executeFunction registry functionName args st
          = (st1, { success := false, error := some e,
                    message := some "Unable to complete this operation at this time." }))
    ∧ (∀ handler st1 r, registry functionName = some handler →
        handler args st = (st1, .ok r) →
        executeFunction registry functionName args st = (st1, r)) := by
  refine ⟨?_, ?_, ?_⟩
  · intro hreg
    simp [executeFunction, hreg, unknownFunctionResult]
  · intro handler st1 e hreg hrun
    simp [executeFunction, hreg, hrun, caughtFaultResult]
  · intro handler st1 r hreg hrun
    simp [executeFunction, hreg, hrun]

/-- A registry with a single tool whose handler always throws (for the C8
witness). -/
def faultingRegistry : Registry := fun n =>
  if n = "boom" then some (fun _ s => (s, .error "kaboom")) else none

/-- C8 witness: the structured failures at concrete inputs — an unregistered
name and a throwing handler. -/
theorem executeFunction_total_structured_failures_witness :
    (executeFunction faultingRegistry "unregistered_tool" [] {}).2.error
        = some "Unknown function"
    ∧ (executeFunction faultingRegistry "boom" [] {}).2.error = some "kaboom" := by
  constructor
  · rw [(executeFunction_total_structured_failures faultingRegistry
        "unregistered_tool" [] {}).1 rfl]
  · rw [(executeFunction_total_structured_failures faultingRegistry
        "boom" [] {}).2.1 (fun _ s => (s, .error "kaboom")) {} "kaboom" rfl rfl]

theorem find?_updateFirst (p : α → Bool) (f : α → α)
    (hp : ∀ a, p a = true → p (f a) = true) (l : List α) :
    (updateFirst p f l).find? p = (l.find? p).map f := by
  induction l with
  | nil => rfl
  | cons x xs ih =>
      by_cases hx : p x
      · rw [show updateFirst p f (x :: xs) = f x :: xs by simp [updateFirst, hx]]
        rw [List.find?_cons_of_pos _ (hp x hx), List.find?_cons_of_pos _ hx]
        rfl
      · rw [show updateFirst p f (x :: xs) = x :: updateFirst p f xs by
          simp [updateFirst, hx]]
        rw [List.find?_cons_of_neg _ hx, List.find?_cons_of_neg _ hx]
        exact ih

theorem find?_append_of_none (p : α → Bool) (l1 l2 : List α)
    (h : l1.find? p = none) : (l1 ++ l2).find? p = l2.find? p := by
  induction l1 with
  | nil => rfl
  | cons x xs ih =>
      by_cases hx : p x
      · rw [List.find?_cons_of_pos _ hx] at h
        cases h
      · rw [List.find?_cons_of_neg _ hx] at h
        rw [List.cons_append, List.find?_cons_of_neg _ hx]
        exact ih h

theorem lookupConversation_mem (g : History) (phone : String) (conv : Conversation)
    (hl : lookupConversation g phone = some conv) : (phone, conv) ∈ g := by
  unfold lookupConversation at hl
  cases hf : g.find? (fun e => e.1 == phone) with
  | none => rw [hf] at hl; cases hl
  | some e =>
      rw [hf] at hl
      have he : e.2 = conv := by
        cases hl
        rfl
      have hp := List.find?_some hf
      have h1 : e.1 = phone := by simpa using hp
      have hm := List.mem_of_find?_eq_some hf
      obtain ⟨e1, e2⟩ := e
      simp only at h1 he
      rw [← h1, ← he]
      exact hm

/-- C9: (a) the idle sweep keeps a session exactly when its `lastActivity` is
not strictly older than one hour before the sweep time; (b) `getOrCreate`
leaves the accessed session's `lastActivity` equal to the access time;
(c) a brand-new session is seeded with exactly the one system message; and
(d) a session accessed at `now` survives a sweep at `sweepNow` whenever `now`
is not older than the threshold. -/
theorem session_sweep_refresh_seed (h : History) (now sweepNow : Int)
    (phone : String) (conv : Conversation) :
    ((phone, conv) ∈ cleanupInactiveConversations sweepNow h ↔
       (phone, conv) ∈ h ∧ ¬ (conv.lastActivity < sweepNow - idleThresholdMs))
    ∧ (∀ conv2, lookupConversation (getOrCreateConversation now h phone).1 phone = some conv2 →
        conv2.lastActivity = now)
    ∧ (lookupConversation h phone = none →
        (getOrCreateConversation now h phone).2 = [Msg.system systemPromptText])
    ∧ (∀ conv2, lookupConversation (getOrCreateConversation now h phone).1 phone = some conv2 →
        ¬ (conv2.lastActivity < sweepNow - idleThresholdMs) →
        (phone, conv2) ∈
          cleanupInactiveConversations sweepNow (getOrCreateConversation now h phone).1) := by
  have hrefresh : ∀ conv2,
      lookupConversation (getOrCreateConversation now h phone).1 phone = some conv2 →
      conv2.lastActivity = now := by
    intro conv2 hl2
    unfold getOrCreateConversation at hl2
    cases hf : h.find? (fun e => e.1 == phone) with
    | none =>
        rw [show lookupConversation h phone = none by
          unfold lookupConversation
          rw [hf]] at hl2
        unfold lookupConversation at hl2
        rw [find?_append_of_none _ _ _ hf] at hl2
        simp at hl2
        rw [← hl2]
    | some e =>
        rw [show lookupConversation h phone = some e.2 by
          unfold lookupConversation
          rw [hf]] at hl2
        unfold lookupConversation at hl2
        rw [find?_updateFirst _ _ (by intro a ha; simpa using ha) h, hf] at hl2
        cases hl2
        rfl
  refine ⟨?_, hrefresh, ?_, ?_⟩
  · unfold cleanupInactiveConversations
    rw [List.mem_filter]
    simp
  · intro hl
    unfold getOrCreateConversation
    rw [hl]
  · intro conv2 hl2 hfresh
    unfold cleanupInactiveConversations
    rw [List.mem_filter]
    refine ⟨lookupConversation_mem _ _ _ hl2, ?_⟩
    simpa using hfresh

/-- C9 witness: the theorem at concrete inputs — a fresh session for an
unknown phone is seeded with the single system message. -/
theorem session_sweep_refresh_seed_witness :
    (getOrCreateConversation 5 [] "+23276000000").2 = [Msg.system systemPromptText] :=
  (session_sweep_refresh_seed [] 5 0 "+23276000000"
    { messages := [], lastActivity := 0 }).2.2.1 rfl

/-- Is this a tool-role message? -/
def isToolMsg : Msg → Bool
  | .tool _ _ => true
  | _ => false

/-- Is this an assistant message carrying a tool-call request? -/
def isToolCallRequestMsg : Msg → Bool
  | .assistantToolCalls _ => true
  | _ => false

/-- Is this an assistant message carrying plain content? -/
def isAssistantContentMsg : Msg → Bool
  | .assistantContent _ => true
  | _ => false

/-- Is this one of the two message kinds the tool-calling loop appends? -/
def isLoopAppend (m : Msg) : Bool :=
  isToolCallRequestMsg m || isToolMsg m

/-- Number of plain-content assistant messages in a transcript. -/
def countAssistantContent (ms : List Msg) : Nat :=
  (ms.filter isAssistantContentMsg).length

theorem runToolCall_msg (registry : Registry) (st : Store) (tc : ToolCall) (m : Msg)
    (h : (runToolCall registry st tc).2 = some m) : isToolMsg m = true := by
  unfold runToolCall at h
  by_cases ht : tc.type = "function"
  · rw [if_pos ht] at h
    cases hp : tc.parsedArguments <;> rw [hp] at h <;> simp at h <;> rw [← h] <;> rfl
  · rw [if_neg ht] at h
    cases h

theorem processToolCalls_all_tool (registry : Registry) (calls : List ToolCall) :
    ∀ (st : Store), ∀ m ∈ (processToolCalls registry st calls).2, isToolMsg m = true := by
  induction calls with
  | nil =>
      intro st m hm
      cases hm
  | cons tc rest ih =>
      intro st m hm
      simp only [processToolCalls] at hm
      cases hrun : (runToolCall registry st tc).2 with
      | none =>
          rw [hrun] at hm
          simp at hm
          exact ih _ m hm
      | some m0 =>
          rw [hrun] at hm
          simp at hm
          rcases hm with rfl | hm2
          · exact runToolCall_msg registry st tc m hrun
          · exact ih _ m hm2

theorem toolLoop_messages_delta (oracle : Oracle) (registry : Registry) :
    ∀ (fuel loopCount : Nat) (c : Completion) (messages : List Msg) (st : Store)
      (requests : Nat),
      ∃ delta : List Msg,
        (toolLoop oracle registry fuel loopCount c messages st requests).messages
          = messages ++ delta
        ∧ ∀ m ∈ delta, isLoopAppend m = true := by
  intro fuel
  induction fuel with
  | zero =>
      intro loopCount c messages st requests
      refine ⟨[], by simp [toolLoop], ?_⟩
      intro m hm
      cases hm
  | succ fuel ih =>
      intro loopCount c messages st requests
      by_cases hc : c.finishReason = "tool_calls"
      · cases ho : oracle (loopCount + 1) with
        | failure =>
            refine ⟨[Msg.assistantToolCalls c.toolCalls] ++
              (processToolCalls registry st c.toolCalls).2, ?_, ?_⟩
            · simp [toolLoop, hc, ho]
            · intro m hm
              rcases List.mem_append.mp hm with h1 | h2
              · simp at h1
                rw [h1]
                rfl
              · have hb := processToolCalls_all_tool registry c.toolCalls st m h2
                simp [isLoopAppend, hb]
        | reply c2 =>
            obtain ⟨delta2, hd2, hall2⟩ := ih (loopCount + 1) c2
              (messages ++ [Msg.assistantToolCalls c.toolCalls] ++
                (processToolCalls registry st c.toolCalls).2)
              (processToolCalls registry st c.toolCalls).1 (requests + 1)
            refine ⟨[Msg.assistantToolCalls c.toolCalls] ++
              (processToolCalls registry st c.toolCalls).2 ++ delta2, ?_, ?_⟩
            · rw [show toolLoop oracle registry (fuel + 1) loopCount c messages st requests
                    = toolLoop oracle registry fuel (loopCount + 1) c2
                        (messages ++ [Msg.assistantToolCalls c.toolCalls] ++
                          (processToolCalls registry st c.toolCalls).2)
                        (processToolCalls registry st c.toolCalls).1 (requests + 1) by
                  simp [toolLoop, hc, ho]]
              rw [hd2]
              simp
            · intro m hm
              rcases List.mem_append.mp hm with h12 | h3
              · rcases List.mem_append.mp h12 with h1 | h2
                · simp at h1
                  rw [h1]
                  rfl
                · have hb := processToolCalls_all_tool registry c.toolCalls st m h2
                  simp [isLoopAppend, hb]
              · exact hall2 m h3
      · refine ⟨[], by simp [toolLoop, hc], ?_⟩
        intro m hm
        cases hm

theorem getOrCreate_find_isSome (now : Int) (h : History) (phone : String) :
    (((getOrCreateConversation now h phone).1).find? (fun e => e.1 == phone)).isSome
      = true := by
  unfold getOrCreateConversation
  cases hf : h.find? (fun e => e.1 == phone) with
  | none =>
      rw [show lookupConversation h phone = none by
        unfold lookupConversation
        rw [hf]]
      rw [find?_append_of_none _ _ _ hf]
      simp
  | some e =>
      rw [show lookupConversation h phone = some e.2 by
        unfold lookupConversation
        rw [hf]]
      rw [find?_updateFirst _ _ (by intro a ha; simpa using ha) h, hf]
      rfl

theorem lookup_writeBack (h : History) (phone : String) (msgs : List Msg)
    (hsome : (h.find? (fun e => e.1 == phone)).isSome = true) :
    (lookupConversation (writeBackMessages h phone msgs) phone).map (fun c => c.messages)
      = some msgs := by
  unfold lookupConversation writeBackMessages
  rw [find?_updateFirst _ _ (by intro a ha; simpa using ha) h]
  cases hf : h.find? (fun e => e.1 == phone) with
  | none => rw [hf] at hsome; cases hsome
  | some e => simp

theorem countAssistantContent_append_loop (msgs0 : List Msg) (u : String)
    (delta : List Msg) (hall : ∀ m ∈ delta, isLoopAppend m = true) :
    countAssistantContent ((msgs0 ++ [Msg.user u]) ++ delta)
      = countAssistantContent msgs0 := by
  unfold countAssistantContent
  rw [List.filter_append, List.filter_append]
  have h1 : delta.filter isAssistantContentMsg = [] := by
    rw [List.filter_eq_nil_iff]
    intro m hm
    have hb := hall m hm
    cases m <;> simp_all [isLoopAppend, isToolCallRequestMsg, isToolMsg, isAssistantContentMsg]
  have h2 : ([Msg.user u]).filter isAssistantContentMsg = [] := rfl
  simp [h1, h2]

theorem lastMsg_loop (msgs0 : List Msg) (u : String) (delta : List Msg)
    (hall : ∀ m ∈ delta, isLoopAppend m = true) :
    ∀ m, ((msgs0 ++ [Msg.user u]) ++ delta).getLast? = some m →
      roleOf m = "user" ∨ roleOf m = "tool" ∨ isToolCallRequestMsg m = true := by
  intro m hm
  cases hd : delta with
  | nil =>
      subst hd
      rw [List.append_nil, List.getLast?_append_of_ne_nil _ (by simp)] at hm
      simp at hm
      subst hm
      left
      rfl
  | cons d ds =>
      subst hd
      rw [List.getLast?_append_of_ne_nil _ (by simp)] at hm
      have hx : m ∈ d :: ds := by
        obtain ⟨hne, heq⟩ := List.mem_getLast?_eq_getLast (l := d :: ds) (x := m) hm
        rw [heq]
        exact List.getLast_mem hne
      have hb := hall m hx
      cases m <;>
        simp_all [isLoopAppend, isToolCallRequestMsg, isToolMsg, roleOf]

/-- A model response requesting zero tool calls followed by a contentless
completion (for the C10 counterexample). -/
def emptyToolCallsOracle : Oracle := fun i =>
  if i = 0 then .reply { finishReason := "tool_calls", content := none, toolCalls := [] }
  else .reply { finishReason := "stop", content := none, toolCalls := [] }

/-- C10 counterexample: a turn whose first completion requests an empty
tool-call list and whose second completion has no content ends in the
missing-content fallback reply, yet its transcript ends with an
assistant-role message (the pushed tool-call request), refuting both the
"assistant-role only on plain content" clause and the "ends with the last
user or tool message" clause. -/
theorem failed_turn_ends_with_assistant_msg :
    (processMessage emptyToolCallsOracle emptyRegistry 0 { history := [], store := {} }
        "hi" "+23276000000").outcome = .fallback
    ∧ ((lookupConversation (processMessage emptyToolCallsOracle emptyRegistry 0
          { history := [], store := {} } "hi" "+23276000000").state.history
          "+23276000000").map (fun conv => conv.messages.getLast?))
        = some (some (.assistantToolCalls []))
    ∧ roleOf (.assistantToolCalls []) = "assistant" := by
  decide

theorem finishTurn_eq_bailed (h : History) (phone : String) (msgsF : List Msg)
    (storeF : Store) (reqsF : Nat) :
    finishTurn h phone { messages := msgsF, store := storeF, requests := reqsF, exit := .bailed }
      = { state := { history := writeBackMessages h phone msgsF, store := storeF },
          reply := bailReply, requests := reqsF, outcome := .bailed } := rfl

theorem finishTurn_eq_apiError (h : History) (phone : String) (msgsF : List Msg)
    (storeF : Store) (reqsF : Nat) :
    finishTurn h phone { messages := msgsF, store := storeF, requests := reqsF, exit := .apiError }
      = { state := { history := writeBackMessages h phone msgsF, store := storeF },
          reply := errorReply, requests := reqsF, outcome := .errored } := rfl

theorem finishTurn_eq_none (h : History) (phone : String) (msgsF : List Msg)
    (storeF : Store) (reqsF : Nat) (c : Completion) (hcont : c.content = none) :
    finishTurn h phone { messages := msgsF, store := storeF, requests := reqsF, exit := .finished c }
      = { state := { history := writeBackMessages h phone msgsF, store := storeF },
          reply := fallbackReply, requests := reqsF, outcome := .fallback } := by
  obtain ⟨fr, cont, calls⟩ := c
  have h2 : cont = none := hcont
  subst h2
  rfl

theorem finishTurn_eq_empty (h : History) (phone : String) (msgsF : List Msg)
    (storeF : Store) (reqsF : Nat) (c : Completion) (hcont : c.content = some "") :
    finishTurn h phone { messages := msgsF, store := storeF, requests := reqsF, exit := .finished c }
      = { state := { history := writeBackMessages h phone msgsF, store := storeF },
          reply := fallbackReply, requests := reqsF, outcome := .fallback } := by
  obtain ⟨fr, cont, calls⟩ := c
  have h2 : cont = some "" := hcont
  subst h2
  rfl

theorem finishTurn_eq_content (h : History) (phone : String) (msgsF : List Msg)
    (storeF : Store) (reqsF : Nat) (c : Completion) (content : String)
    (hcont : c.content = some content) (hne : content ≠ "") :
    finishTurn h phone { messages := msgsF, store := storeF, requests := reqsF, exit := .finished c }
      = { state := { history := writeBackMessages h phone (msgsF ++ [Msg.assistantContent content]),
                     store := storeF },
          reply := content, requests := reqsF, outcome := .content } := by
  obtain ⟨fr, cont, calls⟩ := c
  have h2 : cont = some content := hcont
  subst h2
  simp [finishTurn, hne]

/-- The contextual user-role message of a turn. -/
def contextualUserMsg (userMessage phone : String) : Msg :=
  .user ("[User texting from: " ++ phone ++ "]" ++ "\n\n" ++ userMessage)

theorem processMessage_eq_failure (oracle : Oracle) (registry : Registry) (now : Int)
    (st : AgentState) (userMessage phone : String) (h0 : oracle 0 = .failure) :
    processMessage oracle registry now st userMessage phone
      = { state := { history := writeBackMessages (getOrCreateConversation now st.history phone).1 phone ((getOrCreateConversation now st.history phone).2 ++ [contextualUserMsg userMessage phone]),
                     store := st.store },
          reply := errorReply, requests := 1, outcome := .errored } := by
  unfold processMessage
  rw [h0]
  rfl

theorem processMessage_eq_reply (oracle : Oracle) (registry : Registry) (now : Int)
    (st : AgentState) (userMessage phone : String) (c0 : Completion)
    (h0 : oracle 0 = .reply c0) :
    processMessage oracle registry now st userMessage phone
      = finishTurn (getOrCreateConversation now st.history phone).1 phone
          (toolLoop oracle registry maxLoops 0 c0
            ((getOrCreateConversation now st.history phone).2 ++
              [contextualUserMsg userMessage phone])
            st.store 1) := by
  unfold processMessage
  rw [h0]
  rfl

/-- C10 (amended): the three fixed failure replies are never appended to the
transcript — on a non-content outcome the transcript holds exactly as many
plain-content assistant messages as it did before the turn's model phase, and
it ends with a user message, a tool message, or an assistant tool-call
request; an assistant plain-content message is appended exactly on the
content outcome, in which case the transcript ends with the returned reply. -/
theorem failed_turn_reply_not_appended (oracle : Oracle) (registry : Registry)
    (now : Int) (st : AgentState) (userMessage phone : String) (conv2 : Conversation)
    (hl : lookupConversation
        (processMessage oracle registry now st userMessage phone).state.history phone
      = some conv2) :
    ((processMessage oracle registry now st userMessage phone).outcome ≠ .content →
        countAssistantContent conv2.messages
          = countAssistantContent (getOrCreateConversation now st.history phone).2
        ∧ (∀ m, conv2.messages.getLast? = some m →
            roleOf m = "user" ∨ roleOf m = "tool" ∨ isToolCallRequestMsg m = true))
    ∧ ((processMessage oracle registry now st userMessage phone).outcome = .content →
        conv2.messages.getLast?
          = some (.assistantContent
              (processMessage oracle registry now st userMessage phone).reply)) := by
  have hsome := getOrCreate_find_isSome now st.history phone
  cases h0 : oracle 0 with
  | failure =>
      rw [processMessage_eq_failure oracle registry now st userMessage phone h0] at hl ⊢
      have hl2 : lookupConversation
          (writeBackMessages (getOrCreateConversation now st.history phone).1 phone
            ((getOrCreateConversation now st.history phone).2 ++
              [contextualUserMsg userMessage phone])) phone = some conv2 := hl
      have hmsgs := lookup_writeBack (getOrCreateConversation now st.history phone).1
        phone ((getOrCreateConversation now st.history phone).2 ++
          [contextualUserMsg userMessage phone]) hsome
      rw [hl2] at hmsgs
      have hconv : conv2.messages
          = (getOrCreateConversation now st.history phone).2 ++
            [contextualUserMsg userMessage phone] := by
        simpa using hmsgs
      constructor
      · intro _
        constructor
        · rw [hconv]
          have hc := countAssistantContent_append_loop
            (getOrCreateConversation now st.history phone).2
            ("[User texting from: " ++ phone ++ "]" ++ "\n\n" ++ userMessage) []
            (by intro m2 hm2; cases hm2)
          simpa [contextualUserMsg] using hc
        · intro m hm
          rw [hconv] at hm
          exact lastMsg_loop (getOrCreateConversation now st.history phone).2
            ("[User texting from: " ++ phone ++ "]" ++ "\n\n" ++ userMessage) []
            (by intro m2 hm2; cases hm2) m (by simpa [contextualUserMsg] using hm)
      · intro hx
        exact TurnEnd.noConfusion hx
  | reply c0 =>
      rw [processMessage_eq_reply oracle registry now st userMessage phone c0 h0] at hl ⊢
      obtain ⟨delta, hdelta, hdall⟩ := toolLoop_messages_delta oracle registry maxLoops 0 c0
        ((getOrCreateConversation now st.history phone).2 ++
          [contextualUserMsg userMessage phone])
        st.store 1
      cases hout : toolLoop oracle registry maxLoops 0 c0
        ((getOrCreateConversation now st.history phone).2 ++
          [contextualUserMsg userMessage phone])
        st.store 1 with
      | mk msgsF storeF reqsF exitF =>
          rw [hout] at hl
          have hdelta2 : msgsF
              = (getOrCreateConversation now st.history phone).2 ++
                [contextualUserMsg userMessage phone] ++ delta := by
            rw [hout] at hdelta
            exact hdelta
          have hfail : ∀ (rep : String) (oc : TurnEnd), oc ≠ TurnEnd.content →
              conv2.messages = msgsF →
              ((oc ≠ TurnEnd.content →
                  countAssistantContent conv2.messages
                    = countAssistantContent (getOrCreateConversation now st.history phone).2
                  ∧ (∀ m, conv2.messages.getLast? = some m →
                      roleOf m = "user" ∨ roleOf m = "tool"
                        ∨ isToolCallRequestMsg m = true))
                ∧ (oc = TurnEnd.content →
                    conv2.messages.getLast? = some (.assistantContent rep))) := by
            intro rep oc hoc hcv
            constructor
            · intro _
              rw [hcv, hdelta2]
              refine ⟨?_, ?_⟩
              · have hc := countAssistantContent_append_loop
                  (getOrCreateConversation now st.history phone).2
                  ("[User texting from: " ++ phone ++ "]" ++ "\n\n" ++ userMessage) delta hdall
                simpa [contextualUserMsg] using hc
              · intro m hm
                exact lastMsg_loop (getOrCreateConversation now st.history phone).2
                  ("[User texting from: " ++ phone ++ "]" ++ "\n\n" ++ userMessage) delta
                  hdall m (by simpa [contextualUserMsg] using hm)
            · intro hx
              exact absurd hx hoc
          cases exitF with
          | bailed =>
              rw [finishTurn_eq_bailed] at hl ⊢
              have hl2 : lookupConversation
                  (writeBackMessages (getOrCreateConversation now st.history phone).1
                    phone msgsF) phone = some conv2 := hl
              have hmsgs := lookup_writeBack
                (getOrCreateConversation now st.history phone).1 phone msgsF hsome
              rw [hl2] at hmsgs
              exact hfail bailReply .bailed (by simp) (by simpa using hmsgs)
          | apiError =>
              rw [finishTurn_eq_apiError] at hl ⊢
              have hl2 : lookupConversation
                  (writeBackMessages (getOrCreateConversation now st.history phone).1
                    phone msgsF) phone = some conv2 := hl
              have hmsgs := lookup_writeBack
                (getOrCreateConversation now st.history phone).1 phone msgsF hsome
              rw [hl2] at hmsgs
              exact hfail errorReply .errored (by simp) (by simpa using hmsgs)
          | finished c =>
              cases hcont : c.content with
              | none =>
                  rw [finishTurn_eq_none _ _ _ _ _ c hcont] at hl ⊢
                  have hl2 : lookupConversation
                      (writeBackMessages (getOrCreateConversation now st.history phone).1
                        phone msgsF) phone = some conv2 := hl
                  have hmsgs := lookup_writeBack
                    (getOrCreateConversation now st.history phone).1 phone msgsF hsome
                  rw [hl2] at hmsgs
                  exact hfail fallbackReply .fallback (by simp) (by simpa using hmsgs)
              | some content =>
                  by_cases hne : content = ""
                  · subst hne
                    rw [finishTurn_eq_empty _ _ _ _ _ c hcont] at hl ⊢
                    have hl2 : lookupConversation
                        (writeBackMessages (getOrCreateConversation now st.history phone).1
                          phone msgsF) phone = some conv2 := hl
                    have hmsgs := lookup_writeBack
                      (getOrCreateConversation now st.history phone).1 phone msgsF hsome
                    rw [hl2] at hmsgs
                    exact hfail fallbackReply .fallback (by simp) (by simpa using hmsgs)
                  · rw [finishTurn_eq_content _ _ _ _ _ c content hcont hne] at hl ⊢
                    have hl2 : lookupConversation
                        (writeBackMessages (getOrCreateConversation now st.history phone).1
                          phone (msgsF ++ [Msg.assistantContent content])) phone
                        = some conv2 := hl
                    have hmsgs := lookup_writeBack
                      (getOrCreateConversation now st.history phone).1 phone
                      (msgsF ++ [Msg.assistantContent content]) hsome
                    rw [hl2] at hmsgs
                    have hconv : conv2.messages
                        = msgsF ++ [Msg.assistantContent content] := by
                      simpa using hmsgs
                    constructor
                    · intro hx
                      simp at hx
                    · intro _
                      rw [hconv, List.getLast?_append_of_ne_nil _ (by simp)]
                      rfl

/-- C10 witness: the amended theorem at the concrete empty-tool-calls input,
discharging the lookup and outcome hypotheses. -/
theorem failed_turn_reply_not_appended_witness :
    countAssistantContent
        ((lookupConversation (processMessage emptyToolCallsOracle emptyRegistry 0
            { history := [], store := {} } "hi" "+23276000000").state.history
            "+23276000000").getD { messages := [], lastActivity := 0 }).messages
      = countAssistantContent
          (getOrCreateConversation 0 ([] : History) "+23276000000").2 := by
  have h := (failed_turn_reply_not_appended emptyToolCallsOracle emptyRegistry 0
    { history := [], store := {} } "hi" "+23276000000"
    (((lookupConversation (processMessage emptyToolCallsOracle emptyRegistry 0
        { history := [], store := {} } "hi" "+23276000000").state.history
        "+23276000000").getD { messages := [], lastActivity := 0 }))
    (by decide)).1 (by decide)
  exact h.1

end GovVerify
